import Mathlib

/-!
# Verification of the PatSnap MCP server core (`src/index.ts`)

A shallow embedding of the token manager, query builder, API gateway and
dispatcher of the PatSnap MCP server, together with theorems settling the
behavioural claims about them.

Modelling conventions:
* JSON values are the inductive `Json`; numbers are modelled as integers,
  which covers every numeric field the program inspects (`expires_in`,
  `expiresIn`, `error_code`, HTTP statuses).
* JavaScript truthiness, `||` / `&&` value-chaining, `String(v)` and
  template-literal conversion are modelled explicitly (`Json.truthy`,
  `jsOr`, `jsAnd`, `Json.display`).
* Time is in seconds (`Int`), matching `Date.now() / 1000`.
* The outcome of a `fetch` is an oracle argument `Except String HttpResponse`:
  `.error e` is a network failure whose JS error message is `e`; a response
  carries its status, the result of `response.text()` (`none` when reading
  the body fails) and the result of `response.json()` (`.error` on a JSON
  parse failure, carrying the JS error message).
* Functions are state-passing: they take the current token cache and return
  the result, the new cache, and the list of network requests attempted.
  A result is an `Outcome`: a value, a thrown `McpError`, or a thrown
  exception that is not an `McpError` (`Outcome.thrown`) — the TypeError the
  unguarded dereference on source line 87 raises for a token body that is
  the JSON literal `null`, which only the dispatcher's catch block wraps.
  Console logging and the best-effort token-response log file are side
  effects with no influence on results and are not modelled.
-/

namespace Patsnap

/-- JSON values (numbers as integers, sufficient for all fields the program
inspects). `Json.obj` fields are in insertion order, keys unique, matching a
parsed JSON object. -/
inductive Json where
  | null
  | bool (b : Bool)
  | num (n : Int)
  | str (s : String)
  | arr (elems : List Json)
  | obj (fields : List (String × Json))

/-- JavaScript truthiness of a value. `[]` and `\x7b\x7d` are truthy in JS. -/
def Json.truthy : Json → Bool
  | .null => false
  | .bool b => b
  | .num n => n != 0
  | .str s => s != ""
  | .arr _ => true
  | .obj _ => true

/-- Truthiness of a possibly-undefined value (`none` models `undefined`). -/
def jsTruthy : Option Json → Bool
  | none => false
  | some j => j.truthy

/-- JS property access `v.k` on a non-`null` receiver: a field of an
object, `undefined` for the other (primitive or array) values, which have no
own string-keyed properties of these names. Access on `null` throws a
TypeError instead; every use of `getField` in this file models an access
the source guards against `null` (by a truthiness test or an `&&` chain),
except that the *unguarded* dereference of the token body at source line 87
is modelled separately in `getAccessTokenFetch`, which checks for the
`null` body first and produces the thrown-TypeError outcome. -/
def Json.getField : Json → String → Option Json
  | .obj fs, k => fs.lookup k
  | _, _ => none

/-- JS `a || b`: the value of `a` when truthy, else the value of `b`. -/
def jsOr (a b : Option Json) : Option Json :=
  if jsTruthy a then a else b

/-- JS `a && b`: the value of `b` when `a` is truthy, else the value of `a`. -/
def jsAnd (a b : Option Json) : Option Json :=
  if jsTruthy a then b else a

mutual
/-- JS string conversion (`String(v)`, template literals): objects print as
`[object Object]`, arrays join their elements with commas. -/
def Json.display : Json → String
  | .null => "null"
  | .bool b => if b then "true" else "false"
  | .num n => toString n
  | .str s => s
  | .arr xs => Json.displayElems xs
  | .obj _ => "[object Object]"

/-- Array-to-string per JS `Array.prototype.toString`: comma-joined, with
`null` elements rendered empty. -/
def Json.displayElems : List Json → String
  | [] => ""
  | [.null] => ""
  | [x] => Json.display x
  | .null :: xs => "," ++ Json.displayElems xs
  | x :: xs => Json.display x ++ "," ++ Json.displayElems xs
end

/-- Template-literal conversion of a possibly-undefined value
(`undefined` prints as `undefined`). -/
def displayOpt : Option Json → String
  | none => "undefined"
  | some j => j.display

/-- The own enumerable string-keyed properties a JS `for..in` loop visits, in
insertion order; for arrays these are the index keys. -/
def Json.ownFields : Json → List (String × Json)
  | .obj fs => fs
  | .arr xs => xs.enum.map fun p => (toString p.1, p.2)
  | _ => []

def Json.isNull : Json → Bool
  | .null => true
  | _ => false

/-- Credentials `PATSNAP_CLIENT_ID` / `PATSNAP_CLIENT_SECRET`, read once from the
environment (`none` = unset; JS also treats the empty string as falsy). -/
structure Config where
  clientId : Option String
  clientSecret : Option String
deriving DecidableEq

/-- JS falsiness of a `string | undefined` environment variable. -/
def strFalsy : Option String → Bool
  | none => true
  | some s => s == ""

/-- Source line 33: `!PATSNAP_CLIENT_ID || !PATSNAP_CLIENT_SECRET`. -/
def credsMissing (cfg : Config) : Bool :=
  strFalsy cfg.clientId || strFalsy cfg.clientSecret

/-- The module-level `cachedToken` record: `\x7b token, expiresAt \x7d`. -/
structure CachedToken where
  token : String
  expiresAt : Int
deriving DecidableEq

/-- Source line 22: `TOKEN_EXPIRY_BUFFER_SECONDS = 60`. -/
def TOKEN_EXPIRY_BUFFER_SECONDS : Int := 60

/-- An HTTP response as the program observes it: status, the result of
`response.text()` (`none` when reading fails) and of `response.json()`
(`.error` carries the JS parse-error message). -/
structure HttpResponse where
  status : Nat
  bodyText : Option String
  json : Except String Json

/-- Property `response.ok`: status in [200, 300). -/
def HttpResponse.isOk (r : HttpResponse) : Bool :=
  decide (200 ≤ r.status) && decide (r.status < 300)

/-- Errors thrown as `new McpError(code, message)`. -/
structure McpError where
  code : Nat
  message : String
deriving DecidableEq

/-- Outcome of an awaited operation as its JS caller observes it: a value,
a thrown `McpError`, or a thrown exception that is *not* an `McpError`
(`thrown`, carrying `error.message`) — concretely the TypeError raised by
the unguarded `json.access_token` dereference of source line 87. `McpError`s
and other exceptions propagate identically, but the dispatcher's catch block
(source lines 401-415) rethrows the former unchanged and wraps only the
latter. -/
inductive Outcome (α : Type) where
  | ok (value : α)
  | error (e : McpError)
  | thrown (message : String)
deriving DecidableEq

def Outcome.isThrown {α : Type} : Outcome α → Bool
  | .thrown _ => true
  | _ => false

/-- A network request attempted by the program (the `fetch` calls). -/
inductive NetEvent where
  | tokenRequest
  | dataRequest (endpoint : String) (query : List (String × String))
deriving DecidableEq

def NetEvent.isData : NetEvent → Bool
  | .dataRequest _ _ => true
  | _ => false

/-- Result of one `getAccessToken` call: its outcome, the token cache it
leaves behind, and the network requests it attempted. -/
structure TokenStep where
  result : Outcome String
  cache : Option CachedToken
  events : List NetEvent

/-- Source lines 57-62, the `errorText` fallback: the response body text, or
`Status code N` when reading the body fails. -/
def errorTextOf (r : HttpResponse) : String :=
  match r.bodyText with
  | some t => t
  | none => "Status code " ++ toString r.status

/-- Source line 87: `json.access_token || json.token || (json.data && json.data.token)`. -/
def extractTokenField (j : Json) : Option Json :=
  jsOr (j.getField "access_token")
    (jsOr (j.getField "token")
      (jsAnd (j.getField "data")
        ((j.getField "data").bind fun d => d.getField "token")))

/-- Source line 89: `json.expires_in || json.expiresIn`. -/
def expiresInField (j : Json) : Option Json :=
  jsOr (j.getField "expires_in") (j.getField "expiresIn")

/-- Source line 96: `typeof expiresIn === 'number' && expiresIn > 0` — the
validated expiry seconds, when the selected value is a positive number. -/
def validExpiry : Option Json → Option Int
  | some (.num n) => if 0 < n then some n else none
  | _ => none

/-- Message of the TypeError raised at source line 87 when `json` is `null`
(`json.access_token` on a `null` receiver; the engine message quotes the
property name, elided here). -/
def nullDerefMessage : String :=
  "Cannot read properties of null (reading access_token)"

/-- The cache-hit test of source line 27:
`cachedToken && cachedToken.expiresAt > now + TOKEN_EXPIRY_BUFFER_SECONDS`. -/
def cacheHit (cache : Option CachedToken) (now : Int) : Bool :=
  match cache with
  | some c => decide (now + TOKEN_EXPIRY_BUFFER_SECONDS < c.expiresAt)
  | none => false

/-- The cache-miss tail of `getAccessToken` (source lines 33-107): credential
check, token-endpoint POST, error handling, token extraction and caching.
`cache0` is the incoming cache, left untouched on the paths that throw before
the endpoint responds. -/
def getAccessTokenFetch (cfg : Config) (cache0 : Option CachedToken) (now : Int)
    (tokenFetch : Except String HttpResponse) : TokenStep :=
  if credsMissing cfg then
    ⟨.error ⟨500, "Server configuration error: Missing PatSnap API credentials."⟩, cache0, []⟩
  else
    match tokenFetch with
    | .error e =>
        ⟨.error ⟨503, "Network error connecting to PatSnap auth service: " ++ e⟩,
          cache0, [.tokenRequest]⟩
    | .ok r =>
        if !r.isOk then
          ⟨.error ⟨r.status, "Failed to get PatSnap access token: " ++ errorTextOf r⟩,
            none, [.tokenRequest]⟩
        else
          match r.json with
          | .error e =>
              ⟨.error ⟨500, "Failed to parse PatSnap access token response: " ++ e⟩,
                none, [.tokenRequest]⟩
          | .ok j =>
              -- line 87 dereferences `json` without a null guard: a 2xx body
              -- that is the JSON literal null makes `json.access_token` throw
              -- a TypeError before any cache write, so the incoming cache
              -- (stale or not) survives and no McpError is produced
              if j.isNull then
                ⟨.thrown nullDerefMessage, cache0, [.tokenRequest]⟩
              else
              -- line 91: `if (!token || typeof token !== 'string')`
              match extractTokenField j with
              | some (.str s) =>
                  if s == "" then
                    ⟨.error ⟨500, "Failed to parse access token from PatSnap response structure."⟩,
                      none, [.tokenRequest]⟩
                  else
                    match validExpiry (expiresInField j) with
                    | some e => ⟨.ok s, some ⟨s, now + e⟩, [.tokenRequest]⟩
                    | none => ⟨.ok s, none, [.tokenRequest]⟩
              | _ =>
                  ⟨.error ⟨500, "Failed to parse access token from PatSnap response structure."⟩,
                    none, [.tokenRequest]⟩

/-- Function `getAccessToken` (source lines 24-108): return the cached token while it
is more than 60 seconds from expiry, otherwise fetch a fresh one. -/
def getAccessToken (cfg : Config) (cache : Option CachedToken) (now : Int)
    (tokenFetch : Except String HttpResponse) : TokenStep :=
  match cache with
  | some c =>
      if now + TOKEN_EXPIRY_BUFFER_SECONDS < c.expiresAt then
        ⟨.ok c.token, some c, []⟩
      else
        getAccessTokenFetch cfg (some c) now tokenFetch
  | none => getAccessTokenFetch cfg none now tokenFetch

/-! ## Query builder (`buildCommonSearchParams`, source lines 111-124) -/

/-- Function `buildCommonSearchParams` (source lines 111-124): append each own
property whose value is not `null`/`undefined` (the loose `!= null` check),
stringified, then append `apikey` when `PATSNAP_CLIENT_ID` is truthy.
Arguments are the raw JS object (absent keys model `undefined` values, which
the `!= null` guard would skip anyway). -/
def buildCommonSearchParams (cfg : Config) (args : Json) : List (String × String) :=
  let params := args.ownFields.foldl
    (fun ps kv => if kv.2.isNull then ps else ps ++ [(kv.1, kv.2.display)]) []
  match cfg.clientId with
  | some cid => if cid == "" then params else params ++ [("apikey", cid)]
  | none => params

/-! ## API gateway (`callPatsnapApi`, source lines 127-191) -/

/-- Result of one data-endpoint call: the outcome (on success, the parsed
upstream JSON, which the source wraps verbatim as a text content item via
`JSON.stringify(json, null, 2)`), the token cache left behind, and the
network requests attempted. -/
structure ApiStep where
  result : Outcome Json
  cache : Option CachedToken
  events : List NetEvent

/-- The domain-failure test of source line 176:
`json && json.status === false && json.error_code !== 0`. -/
def isDomainError (j : Json) : Bool :=
  j.truthy
    && (match j.getField "status" with
        | some (.bool false) => true
        | _ => false)
    && !(match j.getField "error_code" with
        | some (.num n) => n == 0
        | _ => false)

/-- Source line 179: `json.error_msg || 'Unknown error'`. -/
def errMsgOf (j : Json) : String :=
  if jsTruthy (j.getField "error_msg") then displayOpt (j.getField "error_msg")
  else "Unknown error"

/-- The data-call phase of `callPatsnapApi` (source lines 132-190), entered
once a bearer token is in hand: `cache1` and `ev` are the cache and events
left by token acquisition, with the data request already recorded in `ev`
(the data `fetch` is attempted whatever its outcome). -/
def dataPhase (cache1 : Option CachedToken) (ev : List NetEvent)
    (dataFetch : Except String HttpResponse) (endpoint : String)
    (errorContext : String) : ApiStep :=
  match dataFetch with
  | .error e =>
      ⟨.error ⟨503, "Network error connecting to PatSnap API (" ++ endpoint ++ "): " ++ e⟩,
        cache1, ev⟩
  | .ok r =>
      if !r.isOk then
        -- lines 157-161: invalidate the cache on 401/403
        if r.status == 401 || r.status == 403 then
          ⟨.error ⟨r.status, "Failed to " ++ errorContext ++ ": " ++ errorTextOf r⟩, none, ev⟩
        else
          ⟨.error ⟨r.status, "Failed to " ++ errorContext ++ ": " ++ errorTextOf r⟩, cache1, ev⟩
      else
        match r.json with
        | .error e =>
            ⟨.error ⟨500,
                "Failed to parse JSON response from PatSnap API (" ++ endpoint ++ "): " ++ e⟩,
              cache1, ev⟩
        | .ok j =>
            if isDomainError j then
              ⟨.error ⟨400,
                  "PatSnap API Error (" ++ displayOpt (j.getField "error_code") ++ "): "
                    ++ errMsgOf j⟩,
                cache1, ev⟩
            else
              ⟨.ok j, cache1, ev⟩

/-- Function `callPatsnapApi` (source lines 127-191): obtain a token (source line
128), then GET the endpoint, clear the cached token on 401/403, surface
non-2xx and JSON-parse failures, reject 2xx bodies carrying the domain
failure flag, and pass every other 2xx body through. -/
def callPatsnapApi (cfg : Config) (cache : Option CachedToken) (now : Int)
    (tokenFetch dataFetch : Except String HttpResponse)
    (endpoint : String) (params : List (String × String))
    (errorContext : String) : ApiStep :=
  match getAccessToken cfg cache now tokenFetch with
  | ⟨.error e, cache1, ev⟩ => ⟨.error e, cache1, ev⟩
  | ⟨.thrown m, cache1, ev⟩ => ⟨.thrown m, cache1, ev⟩
  | ⟨.ok _, cache1, ev⟩ =>
      dataPhase cache1 (ev ++ [.dataRequest endpoint params]) dataFetch endpoint errorContext

/-! ## Tool table and per-tool wrappers (source lines 198-261, 362-372) -/

/-- What distinguishes one tool implementation from another: the endpoint
path under `/insights/`, the `errorContext` string, and whether the wrapper
injects `lang=en` when the caller's `lang` is falsy (source lines 205-211
and analogues). -/
structure ToolImpl where
  endpoint : String
  errorContext : String
  langDefault : Bool
deriving DecidableEq

/-- The `toolImplementations` record (source lines 362-372), with each
tool's endpoint, error context and language-default behaviour read off its
implementation function (source lines 200-260). -/
def toolImplementations : List (String × ToolImpl) :=
  [("get_patent_trends", ⟨"patent-trends", "get patent trends", false⟩),
    ("get_word_cloud", ⟨"word-cloud", "get word cloud", true⟩),
    ("get_wheel_of_innovation", ⟨"wheel-of-innovation", "get wheel of innovation", true⟩),
    ("get_top_authorities_of_origin", ⟨"priority-country", "get top authorities of origin", true⟩),
    ("get_most_cited_patents", ⟨"most-cited", "get most cited patents", false⟩),
    ("get_top_inventors", ⟨"inventor-ranking", "get top inventors", false⟩),
    ("get_top_assignees", ⟨"applicant-ranking", "get top assignees", true⟩),
    ("get_simple_legal_status", ⟨"simple-legal-status", "get simple legal status", false⟩),
    ("get_most_litigated_patents", ⟨"most-asserted", "get most litigated patents", false⟩)]

/-- The query a tool wrapper passes to `callPatsnapApi`: the common params,
then `lang=en` appended when the tool has a language default and `!args.lang`
(source lines 205-211). -/
def toolParams (cfg : Config) (impl : ToolImpl) (args : Json) : List (String × String) :=
  let params := buildCommonSearchParams cfg args
  if impl.langDefault && !(jsTruthy (args.getField "lang")) then params ++ [("lang", "en")]
  else params

/-- A tool implementation function (`getPatentTrends`, `getWordCloud`, ...):
build the query, then call the API gateway. -/
def runTool (cfg : Config) (cache : Option CachedToken) (now : Int)
    (tokenFetch dataFetch : Except String HttpResponse)
    (impl : ToolImpl) (args : Json) : ApiStep :=
  callPatsnapApi cfg cache now tokenFetch dataFetch impl.endpoint
    (toolParams cfg impl args) impl.errorContext

/-! ## Tool registry / ListTools response (source lines 278-360) -/

/-- Which of the three schema constants a tool's `inputSchema` references:
`basePatentInputSchema`, `langPatentInputSchema` or
`langRequiredPatentInputSchema` (source lines 278-304). -/
inductive SchemaKind where
  | base
  | lang
  | langRequired
deriving DecidableEq

/-- One entry of the ListTools response (source lines 311-356). -/
structure ToolDef where
  name : String
  description : String
  inputSchema : SchemaKind
deriving DecidableEq

/-- The ListTools handler's response (source lines 307-360). The source has
no separate registry object: this literal is the Tool Registry, and the
handler returns it verbatim. -/
def listToolsResponse : List ToolDef :=
  [⟨"get_patent_trends",
      "Analyze annual application and issued trends for patents. Understand the trends of patents related to specific technology fields or keywords. Either keywords or IPC classification must be specified.",
      .base⟩,
    ⟨"get_word_cloud",
      "Obtain a snapshot of frequently occurring keywords/phrases from the most recent 5,000 published patents. Identify common terms for refining searches. Returns up to 100 keywords. Either keywords or IPC classification must be specified.",
      .lang⟩,
    ⟨"get_wheel_of_innovation",
      "Provides a two-tiered hierarchical view of keywords/phrases in a technology space. Identify common terms and their associations. Based on the most recent 5,000 publications. Either keywords or IPC classification must be specified.",
      .lang⟩,
    ⟨"get_most_cited_patents",
      "View the top patents cited most frequently by others, indicating influential or core technology. Returns at most Top 10 patents. Note: Search must contain either keywords or IPC. If both are provided, IPC is prioritized.",
      .base⟩,
    ⟨"get_top_authorities_of_origin",
      "Returns the top authorities (priority countries) of origin for patents matching the criteria. Analyze main sources of priority filings. Either keywords or IPC classification must be specified.",
      .lang⟩,
    ⟨"get_top_inventors",
      "Shows the top inventors in the technology field. Evaluate top performers or identify potential recruits. Returns up to the top 10 inventors. Note: Search must contain either keywords or IPC. If both are provided, IPC is prioritized.",
      .base⟩,
    ⟨"get_top_assignees",
      "Shows the top companies (assignees) with the largest patent portfolios. Identify largest players and competitive threats. Returns up to the top 10 assignees. Note: Search must contain either keywords or IPC. If both are provided, IPC is prioritized.",
      .langRequired⟩,
    ⟨"get_simple_legal_status",
      "Provides a breakdown of the simple legal status (e.g., Active, Inactive, Pending) for patents in the technology field. Understand the proportion of patents currently in effect. Note: Search must contain either keywords or IPC. If both are provided, IPC is prioritized.",
      .base⟩,
    ⟨"get_most_litigated_patents",
      "Identify the patents involved in the most litigation cases, indicating potential risk in a technology space. Returns the Top 10 patents by litigation count. Note: Search must contain either keywords or IPC. If both are provided, IPC is prioritized.",
      .base⟩]

/-! ## Dispatcher (CallTool handler, source lines 374-421) -/

/-- Test `typeof v === "object"` for a value that is not `null`: objects and arrays. -/
def isObjectLike : Json → Bool
  | .obj _ => true
  | .arr _ => true
  | _ => false

/-- Source line 386:
`typeof args === 'object' && args !== null ? args : \x7b\x7d`. -/
def resolveToolArgs : Option Json → Json
  | some v => if isObjectLike v then v else .obj []
  | none => .obj []

/-- The envelope check of source lines 376-378: `req` truthy and an object,
with a truthy object `params` property (`typeof null === 'object'` is caught
by the truthiness test, so object-likeness suffices for the model). -/
def envelopeOk (req : Json) : Bool :=
  isObjectLike req
    && jsTruthy (req.getField "params")
    && (match req.getField "params" with
        | some p => isObjectLike p
        | none => false)

/-- The catch block around the implementation call (source lines 401-415):
an `McpError` is logged and re-thrown unchanged; any other `Error` (here,
the thrown-TypeError outcome) is wrapped into
`McpError(500, "Internal server error executing tool <name>: <message>")`.
The non-`Error` throw branch of line 411-414 is unreachable in the model. -/
def dispatchCatch (name : String) (a : ApiStep) : ApiStep :=
  match a.result with
  | .thrown m =>
      ⟨.error ⟨500, "Internal server error executing tool " ++ name ++ ": " ++ m⟩,
        a.cache, a.events⟩
  | _ => a

/-- The CallTool request handler (source lines 374-421): validate the
envelope and tool name, resolve missing/non-object arguments to an empty
object, dispatch through `toolImplementations` with the catch block of
`dispatchCatch` around the implementation call, and fail with 404 on an
unknown name. -/
def handleCallTool (cfg : Config) (cache : Option CachedToken) (now : Int)
    (tokenFetch dataFetch : Except String HttpResponse) (req : Json) : ApiStep :=
  if !envelopeOk req then
    ⟨.error ⟨400, "Invalid CallToolRequest format: Missing or invalid \"params\" object."⟩,
      cache, []⟩
  else
    let p := (req.getField "params").getD .null
    match p.getField "name" with
    | some (.str s) =>
        if s == "" then
          ⟨.error ⟨400, "Invalid CallToolRequest format: Tool \"name\" is missing or invalid."⟩,
            cache, []⟩
        else
          match toolImplementations.lookup s with
          | some impl =>
              dispatchCatch s
                (runTool cfg cache now tokenFetch dataFetch impl
                  (resolveToolArgs (p.getField "arguments")))
          | none => ⟨.error ⟨404, "Unknown tool: " ++ s⟩, cache, []⟩
    | _ =>
        ⟨.error ⟨400, "Invalid CallToolRequest format: Tool \"name\" is missing or invalid."⟩,
          cache, []⟩

/-! ## Process-level cache evolution (for reachability invariants) -/

/-- One externally observable operation of the server process that touches
the token cache. -/
inductive Op where
  | token (now : Int) (tokenFetch : Except String HttpResponse)
  | api (now : Int) (tokenFetch dataFetch : Except String HttpResponse)
      (endpoint : String) (params : List (String × String)) (errorContext : String)

/-- The token cache after one operation. -/
def stepCache (cfg : Config) (cache : Option CachedToken) : Op → Option CachedToken
  | .token now tf => (getAccessToken cfg cache now tf).cache
  | .api now tf df e p c => (callPatsnapApi cfg cache now tf df e p c).cache

/-- The token cache after a sequence of operations, starting from the
process-start state (`cachedToken = null`, source line 21). -/
def reachableCache (cfg : Config) (ops : List Op) : Option CachedToken :=
  ops.foldl (stepCache cfg) none

/-! ## Claim-facing auxiliary definitions -/

/-- The `apikey` suffix `buildCommonSearchParams` appends (source lines
120-122). -/
def apikeyParams (cfg : Config) : List (String × String) :=
  match cfg.clientId with
  | some cid => if cid == "" then [] else [("apikey", cid)]
  | none => []

/-- The token-field check of source line 91 as a predicate: the extracted
value is not a nonempty string. -/
def tokenFieldInvalid (j : Json) : Bool :=
  match extractTokenField j with
  | some (.str s) => s == ""
  | _ => true

/-- Follows the claim's words (C4), not the source: the value of the *first
present* of the field names `access_token`, `token`, nested `data.token`,
regardless of truthiness. -/
def specFirstPresentToken (j : Json) : Option Json :=
  match j.getField "access_token" with
  | some v => some v
  | none =>
      match j.getField "token" with
      | some v => some v
      | none => (j.getField "data").bind fun d => d.getField "token"

/-- Follows the claim's words (C3), not the source: a boolean success flag
`false` *paired with a nonzero error code*. -/
def specDomainFailure (j : Json) : Bool :=
  (match j.getField "status" with
    | some (.bool false) => true
    | _ => false)
  && (match j.getField "error_code" with
      | some (.num n) => n != 0
      | _ => false)

/-- Follows the claim's words (C5), not the source: user arguments (skipping
absent/undefined), then registered defaults only for keys not already
present, then the API key. -/
def specBuildParams (cfg : Config) (args : Json)
    (defaults : List (String × String)) : List (String × String) :=
  (args.ownFields.filterMap fun kv =>
      if kv.2.isNull then none else some (kv.1, kv.2.display))
    ++ defaults.filter (fun d => !((args.ownFields.map Prod.fst).contains d.1))
    ++ apikeyParams cfg

/-- Follows the claim's words (C10), not the source: the response body
carries a positive numeric `expires_in` or `expiresIn` field. -/
def specPositiveExpiryPresent (j : Json) : Bool :=
  (match j.getField "expires_in" with
    | some (.num n) => decide (0 < n)
    | _ => false)
  || (match j.getField "expiresIn" with
      | some (.num n) => decide (0 < n)
      | _ => false)

/-! ## Helper lemmas -/

/-- With credentials configured, the fetch tail always attempts exactly the
token request. -/
lemma getAccessTokenFetch_events_creds (cfg : Config) (cache0 : Option CachedToken)
    (now : Int) (tf : Except String HttpResponse) (h : credsMissing cfg = false) :
    (getAccessTokenFetch cfg cache0 now tf).events = [.tokenRequest] := by
  unfold getAccessTokenFetch
  rw [h]
  rcases tf with e | r
  · rfl
  · simp only [Bool.false_eq_true, if_false]
    split
    · rfl
    · split
      · rfl
      · split
        · rfl
        · split
          · split
            · rfl
            · split <;> rfl
          · rfl

/-- One `getAccessToken` call attempts at most one token request and no data
request. -/
lemma getAccessTokenFetch_events (cfg : Config) (cache0 : Option CachedToken)
    (now : Int) (tf : Except String HttpResponse) :
    (getAccessTokenFetch cfg cache0 now tf).events = []
      ∨ (getAccessTokenFetch cfg cache0 now tf).events = [.tokenRequest] := by
  by_cases h : credsMissing cfg
  · exact Or.inl (by simp [getAccessTokenFetch, h])
  · exact Or.inr (getAccessTokenFetch_events_creds cfg cache0 now tf (by simpa using h))

/-- Function `getAccessToken` never issues a data request. -/
lemma getAccessToken_events (cfg : Config) (cache : Option CachedToken)
    (now : Int) (tf : Except String HttpResponse) :
    (getAccessToken cfg cache now tf).events = []
      ∨ (getAccessToken cfg cache now tf).events = [.tokenRequest] := by
  rcases cache with _ | c
  · simpa [getAccessToken] using getAccessTokenFetch_events cfg none now tf
  · by_cases h : now + TOKEN_EXPIRY_BUFFER_SECONDS < c.expiresAt
    · simp [getAccessToken, h]
    · simpa [getAccessToken, h] using getAccessTokenFetch_events cfg (some c) now tf

lemma getAccessToken_no_dataRequest (cfg : Config) (cache : Option CachedToken)
    (now : Int) (tf : Except String HttpResponse) :
    ((getAccessToken cfg cache now tf).events).countP (fun e => NetEvent.isData e) = 0 := by
  rcases getAccessToken_events cfg cache now tf with h | h <;> rw [h] <;> rfl

/-- On a cache miss, `getAccessToken` is the fetch tail. -/
lemma getAccessToken_of_cacheHit_false (cfg : Config) (cache : Option CachedToken)
    (now : Int) (tf : Except String HttpResponse) (h : cacheHit cache now = false) :
    getAccessToken cfg cache now tf = getAccessTokenFetch cfg cache now tf := by
  rcases cache with _ | c
  · rfl
  · have h' : ¬(now + TOKEN_EXPIRY_BUFFER_SECONDS < c.expiresAt) := by
      simpa [cacheHit] using h
    simp [getAccessToken, h']

/-- On a cache hit, `getAccessToken` returns the cached token unchanged. -/
lemma getAccessToken_of_cacheHit (cfg : Config) (c : CachedToken)
    (now : Int) (tf : Except String HttpResponse)
    (h : now + TOKEN_EXPIRY_BUFFER_SECONDS < c.expiresAt) :
    getAccessToken cfg (some c) now tf = ⟨.ok c.token, some c, []⟩ := by
  simp [getAccessToken, h]

/-- The append-or-skip loop of `buildCommonSearchParams` is a `filterMap`. -/
lemma foldl_filter_emit (p : String × Json → Bool) (g : String × Json → String × String) :
    ∀ (fs : List (String × Json)) (acc : List (String × String)),
      fs.foldl (fun ps kv => if p kv then ps else ps ++ [g kv]) acc
        = acc ++ fs.filterMap (fun kv => if p kv then none else some (g kv))
  | [], _ => by simp
  | kv :: fs, acc => by
      by_cases h : p kv <;>
        simp [List.foldl_cons, h, foldl_filter_emit p g fs, List.filterMap_cons]

/-- Characterization of `buildCommonSearchParams`: the emitted user pairs followed by the
`apikey` suffix. -/
lemma buildCommonSearchParams_eq (cfg : Config) (args : Json) :
    buildCommonSearchParams cfg args
      = (args.ownFields.filterMap fun kv =>
          if kv.2.isNull then none else some (kv.1, kv.2.display))
        ++ apikeyParams cfg := by
  unfold buildCommonSearchParams apikeyParams
  rw [foldl_filter_emit]
  rcases cfg.clientId with _ | cid
  · simp
  · by_cases h : cid == "" <;> simp [h]

/-- With missing credentials, no operation can ever populate the cache. -/
lemma stepCache_none_of_credsMissing (cfg : Config) (h : credsMissing cfg = true)
    (op : Op) : stepCache cfg none op = none := by
  have hfetch : ∀ now tf, getAccessToken cfg none now tf
      = ⟨.error ⟨500, "Server configuration error: Missing PatSnap API credentials."⟩,
          none, []⟩ := by
    intro now tf
    simp [getAccessToken, getAccessTokenFetch, h]
  rcases op with ⟨now, tf⟩ | ⟨now, tf, df, e, p, c⟩
  · simp [stepCache, hfetch]
  · simp [stepCache, callPatsnapApi, hfetch]

/-- A body from which the chain extracts a value is not the `null` body. -/
lemma extract_ne_null (j : Json) (s : String)
    (htok : extractTokenField j = some (.str s)) : j.isNull = false := by
  cases j with
  | null =>
      rw [show extractTokenField Json.null = none from rfl] at htok
      exact Option.noConfusion htok
  | bool b => rfl
  | num n => rfl
  | str t => rfl
  | arr xs => rfl
  | obj fs => rfl

/-- Successful token fetch: the cache is set from the validated expiry. -/
lemma getAccessTokenFetch_success (cfg : Config) (cache0 : Option CachedToken)
    (now : Int) (r : HttpResponse) (j : Json) (s : String)
    (hcreds : credsMissing cfg = false) (hok : r.isOk = true)
    (hjson : r.json = .ok j) (htok : extractTokenField j = some (.str s))
    (hs : (s == "") = false) :
    getAccessTokenFetch cfg cache0 now (.ok r)
      = ⟨.ok s, (validExpiry (expiresInField j)).map fun e => ⟨s, now + e⟩,
          [.tokenRequest]⟩ := by
  have hnn : j.isNull = false := extract_ne_null j s htok
  unfold getAccessTokenFetch
  simp only [hcreds, Bool.false_eq_true, if_false, hok, Bool.not_true, hjson, hnn,
    htok, hs]
  cases validExpiry (expiresInField j) <;> simp

/-- The fetch path on a 2xx response whose body is the JSON literal `null`:
the line-87 dereference throws, the incoming cache survives. -/
lemma getAccessTokenFetch_null_body (cfg : Config) (cache0 : Option CachedToken)
    (now : Int) (r : HttpResponse)
    (hcreds : credsMissing cfg = false) (hok : r.isOk = true)
    (hjson : r.json = .ok .null) :
    getAccessTokenFetch cfg cache0 now (.ok r)
      = ⟨.thrown nullDerefMessage, cache0, [.tokenRequest]⟩ := by
  unfold getAccessTokenFetch
  simp only [hcreds, Bool.false_eq_true, if_false, hok, Bool.not_true, hjson,
    Json.isNull, if_true]

/-- A successful fetch means the response was 2xx and carried a usable
token field. -/
lemma getAccessTokenFetch_ok_success (cfg : Config) (cache0 : Option CachedToken)
    (now : Int) (r : HttpResponse) (j : Json) (s : String)
    (hcreds : credsMissing cfg = false) (hjson : r.json = .ok j)
    (hres : (getAccessTokenFetch cfg cache0 now (.ok r)).result = .ok s) :
    r.isOk = true ∧ extractTokenField j = some (.str s) ∧ (s == "") = false := by
  unfold getAccessTokenFetch at hres
  simp only [hcreds, Bool.false_eq_true, if_false] at hres
  by_cases hok : r.isOk
  · simp only [hok, Bool.not_true, Bool.false_eq_true, if_false, hjson] at hres
    by_cases hnull : j.isNull = true
    · simp [hnull] at hres
    · simp only [Bool.not_eq_true] at hnull
      simp only [hnull, Bool.false_eq_true, if_false] at hres
      rcases hx : extractTokenField j with _ | v
      · simp [hx] at hres
      · rcases v with _ | b | n | sv | xs | fs
        · simp [hx] at hres
        · simp [hx] at hres
        · simp [hx] at hres
        · simp only [hx] at hres
          by_cases hsv : (sv == "") = true
          · simp [hsv] at hres
          · simp only [Bool.not_eq_true] at hsv
            rcases hv : validExpiry (expiresInField j) with _ | e <;>
              simp only [hsv, Bool.false_eq_true, if_false, hv] at hres <;>
              (cases hres; exact ⟨hok, rfl, hsv⟩)
        · simp [hx] at hres
        · simp [hx] at hres
  · simp only [Bool.not_eq_true] at hok
    simp [hok] at hres

/-- Any fetch failure after the token endpoint responded leaves the cache
cleared. -/
lemma getAccessTokenFetch_ok_error (cfg : Config) (cache0 : Option CachedToken)
    (now : Int) (r : HttpResponse) (err : McpError)
    (hcreds : credsMissing cfg = false)
    (hres : (getAccessTokenFetch cfg cache0 now (.ok r)).result = .error err) :
    (getAccessTokenFetch cfg cache0 now (.ok r)).cache = none := by
  unfold getAccessTokenFetch at hres ⊢
  simp only [hcreds, Bool.false_eq_true, if_false] at hres ⊢
  by_cases hok : r.isOk
  · simp only [hok, Bool.not_true, Bool.false_eq_true, if_false] at hres ⊢
    rcases hj : r.json with e | j
    · simp [hj]
    · simp only [hj] at hres ⊢
      by_cases hnull : j.isNull = true
      · simp [hnull] at hres
      · simp only [Bool.not_eq_true] at hnull
        simp only [hnull, Bool.false_eq_true, if_false] at hres ⊢
        rcases hx : extractTokenField j with _ | v
        · simp [hx]
        · rcases v with _ | b | n | sv | xs | fs
          · simp [hx]
          · simp [hx]
          · simp [hx]
          · simp only [hx] at hres ⊢
            by_cases hsv : (sv == "") = true
            · simp [hsv]
            · simp only [hsv, Bool.false_eq_true, if_false] at hres ⊢
              rcases hv : validExpiry (expiresInField j) with _ | e <;>
                simp [hv] at hres
          · simp [hx]
          · simp [hx]
  · simp only [Bool.not_eq_true] at hok
    simp [hok]

/-- Unfolding of `callPatsnapApi` once token acquisition has succeeded. -/
lemma callPatsnapApi_of_token_ok (cfg : Config) (cache : Option CachedToken)
    (now : Int) (tf df : Except String HttpResponse) (endpoint : String)
    (params : List (String × String)) (ctx : String) (tok : String)
    (htok : (getAccessToken cfg cache now tf).result = .ok tok) :
    callPatsnapApi cfg cache now tf df endpoint params ctx
      = dataPhase (getAccessToken cfg cache now tf).cache
          ((getAccessToken cfg cache now tf).events ++ [.dataRequest endpoint params])
          df endpoint ctx := by
  unfold callPatsnapApi
  rcases h : getAccessToken cfg cache now tf with ⟨res, c1, ev1⟩
  rw [h] at htok
  simp only at htok
  rw [htok]

/-- Unfolding of `callPatsnapApi` when token acquisition fails: the token error,
cache and events are passed through and no data request is attempted. -/
lemma callPatsnapApi_of_token_error (cfg : Config) (cache : Option CachedToken)
    (now : Int) (tf df : Except String HttpResponse) (endpoint : String)
    (params : List (String × String)) (ctx : String) (err : McpError)
    (herr : (getAccessToken cfg cache now tf).result = .error err) :
    callPatsnapApi cfg cache now tf df endpoint params ctx
      = ⟨.error err, (getAccessToken cfg cache now tf).cache,
          (getAccessToken cfg cache now tf).events⟩ := by
  unfold callPatsnapApi
  rcases h : getAccessToken cfg cache now tf with ⟨res, c1, ev1⟩
  rw [h] at herr
  simp only at herr
  rw [herr]

/-- The data phase on a 401 or 403 response with a readable body. -/
lemma dataPhase_auth_failure (cache1 : Option CachedToken) (ev : List NetEvent)
    (r : HttpResponse) (endpoint ctx b : String)
    (hst : r.status = 401 ∨ r.status = 403) (hb : r.bodyText = some b) :
    dataPhase cache1 ev (.ok r) endpoint ctx
      = ⟨.error ⟨r.status, "Failed to " ++ ctx ++ ": " ++ b⟩, none, ev⟩ := by
  have hok : r.isOk = false := by
    unfold HttpResponse.isOk
    rcases hst with h | h <;> rw [h] <;> rfl
  have hcode : (r.status == 401 || r.status == 403) = true := by
    rcases hst with h | h <;> rw [h] <;> rfl
  unfold dataPhase
  simp only [hok, Bool.not_false, if_true, hcode, errorTextOf, hb]

/-- The data phase on a 2xx response with parseable JSON. -/
lemma dataPhase_ok (cache1 : Option CachedToken) (ev : List NetEvent)
    (r : HttpResponse) (j : Json) (endpoint ctx : String)
    (hok : r.isOk = true) (hjson : r.json = .ok j) :
    dataPhase cache1 ev (.ok r) endpoint ctx
      = if isDomainError j then
          ⟨.error ⟨400, "PatSnap API Error (" ++ displayOpt (j.getField "error_code") ++ "): "
              ++ errMsgOf j⟩, cache1, ev⟩
        else ⟨.ok j, cache1, ev⟩ := by
  unfold dataPhase
  simp only [hok, Bool.not_true, Bool.false_eq_true, if_false, hjson]

lemma reachableCache_none_of_credsMissing (cfg : Config) (h : credsMissing cfg = true) :
    ∀ ops : List Op, reachableCache cfg ops = none := by
  intro ops
  unfold reachableCache
  induction ops with
  | nil => rfl
  | cons op ops ih =>
      rw [List.foldl_cons, stepCache_none_of_credsMissing cfg h op]
      exact ih

/-- The data phase leaves the event list it is given. -/
lemma dataPhase_events (cache1 : Option CachedToken) (ev : List NetEvent)
    (df : Except String HttpResponse) (endpoint ctx : String) :
    (dataPhase cache1 ev df endpoint ctx).events = ev := by
  unfold dataPhase
  split
  · rfl
  · split
    · split <;> rfl
    · split
      · rfl
      · split <;> rfl

/-- The dispatcher's catch block never changes the cache or the events. -/
lemma dispatchCatch_events (name : String) (a : ApiStep) :
    (dispatchCatch name a).cache = a.cache ∧ (dispatchCatch name a).events = a.events := by
  unfold dispatchCatch
  split <;> exact ⟨rfl, rfl⟩

/-- The CallTool handler on a well-formed request with a nonempty string
tool name: dispatch is a pure registry lookup. -/
lemma handleCallTool_named (cfg : Config) (cache : Option CachedToken) (now : Int)
    (tf df : Except String HttpResponse) (pfs : List (String × Json)) (s : String)
    (hname : pfs.lookup "name" = some (.str s)) (hs : (s == "") = false) :
    handleCallTool cfg cache now tf df (.obj [("params", .obj pfs)])
      = match toolImplementations.lookup s with
        | some impl =>
            dispatchCatch s
              (runTool cfg cache now tf df impl (resolveToolArgs (pfs.lookup "arguments")))
        | none => ⟨.error ⟨404, "Unknown tool: " ++ s⟩, cache, []⟩ := by
  unfold handleCallTool
  simp only [show envelopeOk (.obj [("params", .obj pfs)]) = true from rfl,
    Bool.not_true, Bool.false_eq_true, if_false, Json.getField,
    show List.lookup "params" [("params", Json.obj pfs)] = some (Json.obj pfs) from rfl,
    Option.getD_some, hname, hs]

/-! ## Claim theorems -/

/-- Claim C1: after a successful token fetch at time `t0` whose response
carries token `s` and a valid expiry `e` (so `expires_in = 120` caches
`expiresAt = t0 + 120`), a second `getAccessToken` call at any `t1` inside
the expiry-minus-buffer window (`t1 + 60 < t0 + e`) returns the same token
from the cache with no network call — so the two calls together perform
exactly one token request — while a call at any `t2` at or past the window
boundary (`t0 + e ≤ t2 + 60`, e.g. `t0 + 61` for `e = 120`) attempts a
fresh token-endpoint request. -/
theorem C1_token_cache_reuse (cfg : Config) (t0 t1 t2 : Int) (r : HttpResponse)
    (j : Json) (s : String) (e : Int) (f2 f3 : Except String HttpResponse)
    (hcreds : credsMissing cfg = false) (hok : r.isOk = true)
    (hjson : r.json = Except.ok j)
    (htok : extractTokenField j = some (Json.str s)) (hs : (s == "") = false)
    (hexp : validExpiry (expiresInField j) = some e) :
    getAccessToken cfg none t0 (.ok r)
      = ⟨.ok s, some ⟨s, t0 + e⟩, [.tokenRequest]⟩
    ∧ (t1 + TOKEN_EXPIRY_BUFFER_SECONDS < t0 + e →
        getAccessToken cfg (some ⟨s, t0 + e⟩) t1 f2
          = ⟨.ok s, some ⟨s, t0 + e⟩, []⟩)
    ∧ (t0 + e ≤ t2 + TOKEN_EXPIRY_BUFFER_SECONDS →
        (getAccessToken cfg (some ⟨s, t0 + e⟩) t2 f3).events = [.tokenRequest]) := by
  refine ⟨?_, ?_, ?_⟩
  · show getAccessTokenFetch cfg none t0 (.ok r) = _
    rw [getAccessTokenFetch_success cfg none t0 r j s hcreds hok hjson htok hs, hexp]
    rfl
  · intro h
    exact getAccessToken_of_cacheHit cfg ⟨s, t0 + e⟩ t1 f2 h
  · intro h
    rw [getAccessToken_of_cacheHit_false cfg (some ⟨s, t0 + e⟩) t2 f3
      (show cacheHit (some ⟨s, t0 + e⟩) t2 = false from decide_eq_false (not_lt.mpr h))]
    exact getAccessTokenFetch_events_creds cfg _ t2 f3 hcreds

/-- Witness for C1 at the claim's concrete numbers: a token response
`\x7b access_token: "abc", expires_in: 120 \x7d` cached at time 0; the call
at 59 s is answered from the cache with no network request, the call at
61 s attempts a fresh token request. -/
theorem C1_token_cache_reuse_witness :
    getAccessToken ⟨some "id", some "secret"⟩ none 0
        (.ok ⟨200, some "", .ok (.obj [("access_token", .str "abc"), ("expires_in", .num 120)])⟩)
      = ⟨.ok "abc", some ⟨"abc", 120⟩, [.tokenRequest]⟩
    ∧ getAccessToken ⟨some "id", some "secret"⟩ (some ⟨"abc", 120⟩) 59 (.error "net down")
      = ⟨.ok "abc", some ⟨"abc", 120⟩, []⟩
    ∧ (getAccessToken ⟨some "id", some "secret"⟩ (some ⟨"abc", 120⟩) 61 (.error "net down")).events
      = [.tokenRequest] := by
  have h := C1_token_cache_reuse ⟨some "id", some "secret"⟩ 0 59 61
    ⟨200, some "", .ok (.obj [("access_token", .str "abc"), ("expires_in", .num 120)])⟩
    (.obj [("access_token", .str "abc"), ("expires_in", .num 120)]) "abc" 120
    (.error "net down") (.error "net down") rfl rfl rfl rfl rfl rfl
  simp only [zero_add] at h
  exact ⟨h.1, h.2.1 (by decide), h.2.2 (by decide)⟩

/-- Claim C6: (a) with the client id or secret unset, no reachable process
state ever holds a cached token and every `getAccessToken` call fails with
the status-500 configuration error; (b) with credentials set, every
cache-missing call whose token-endpoint response is non-2xx clears the
cached token and fails with an error carrying the upstream status and the
response body text. -/
theorem C6_config_error_and_auth_error (cfg : Config) :
    (credsMissing cfg = true →
      ∀ (ops : List Op) (now : Int) (tf : Except String HttpResponse),
        reachableCache cfg ops = none
        ∧ (getAccessToken cfg (reachableCache cfg ops) now tf).result
            = .error ⟨500, "Server configuration error: Missing PatSnap API credentials."⟩)
    ∧ (credsMissing cfg = false →
      ∀ (cache : Option CachedToken) (now : Int) (r : HttpResponse) (b : String),
        cacheHit cache now = false → r.isOk = false → r.bodyText = some b →
        getAccessToken cfg cache now (.ok r)
          = ⟨.error ⟨r.status, "Failed to get PatSnap access token: " ++ b⟩,
              none, [.tokenRequest]⟩) := by
  constructor
  · intro h ops now tf
    have hr := reachableCache_none_of_credsMissing cfg h ops
    refine ⟨hr, ?_⟩
    rw [hr]
    show (getAccessTokenFetch cfg none now tf).result = _
    simp [getAccessTokenFetch, h]
  · intro h cache now r b hmiss hok hb
    rw [getAccessToken_of_cacheHit_false cfg cache now _ hmiss]
    unfold getAccessTokenFetch
    simp only [h, Bool.false_eq_true, if_false, hok, Bool.not_false, if_true,
      errorTextOf, hb]

/-- Witness for C6: with the client id unset, a call after one failed
operation still reports the configuration error; with credentials set, a
500 token response with body `oops` fails with status 500 and body text and
clears the cache. -/
theorem C6_config_error_and_auth_error_witness :
    (getAccessToken ⟨none, some "secret"⟩
        (reachableCache ⟨none, some "secret"⟩ [.token 0 (.error "x")]) 5 (.error "y")).result
      = .error ⟨500, "Server configuration error: Missing PatSnap API credentials."⟩
    ∧ getAccessToken ⟨some "id", some "secret"⟩ none 0 (.ok ⟨500, some "oops", .error "bad json"⟩)
      = ⟨.error ⟨500, "Failed to get PatSnap access token: oops"⟩, none, [.tokenRequest]⟩ := by
  exact ⟨((C6_config_error_and_auth_error ⟨none, some "secret"⟩).1 rfl
      [.token 0 (.error "x")] 5 (.error "y")).2,
    (C6_config_error_and_auth_error ⟨some "id", some "secret"⟩).2 rfl
      none 0 ⟨500, some "oops", .error "bad json"⟩ "oops" rfl rfl rfl⟩

/-- The token response of the C10 counterexample:
`\x7b access_token: "abc", expires_in: "soon", expiresIn: 100 \x7d`. The body
carries a positive numeric `expiresIn` field, but the source's
`json.expires_in || json.expiresIn` selects the truthy string `"soon"`,
which fails the `typeof === 'number'` check, so caching is disabled. -/
def c10Json : Json :=
  .obj [("access_token", .str "abc"), ("expires_in", .str "soon"), ("expiresIn", .num 100)]

/-- Counterexample to claim C10 as stated, in two parts. (a) A successful
`getAccessToken` call whose response *does* carry a positive numeric
`expires_in`/`expiresIn` field (`expiresIn: 100`), yet the cache is left
absent — the parenthetical "absent when the response carried no positive
numeric expires_in/expiresIn field" does not match the code's first-truthy
selection. (b) A 2xx response whose body is the JSON literal `null` enters
a failure path after the token endpoint responded (its token field is
missing), yet the cache is *not* absent afterwards: the line-87 dereference
throws a TypeError before `cachedToken = null` runs and the stale entry
survives. -/
theorem C10_cache_consistency_counterexample :
    specPositiveExpiryPresent c10Json = true
    ∧ (getAccessToken ⟨some "id", some "secret"⟩ none 0
        (.ok ⟨200, some "", .ok c10Json⟩)).result = .ok "abc"
    ∧ (getAccessToken ⟨some "id", some "secret"⟩ none 0
        (.ok ⟨200, some "", .ok c10Json⟩)).cache = none
    ∧ getAccessToken ⟨some "id", some "secret"⟩ (some ⟨"stale", 20⟩) 100
        (.ok ⟨200, some "", .ok .null⟩)
      = ⟨.thrown nullDerefMessage, some ⟨"stale", 20⟩, [.tokenRequest]⟩ := by
  refine ⟨rfl, rfl, rfl, rfl⟩

/-- Claim C10, amended: whenever `getAccessToken` returns successfully, the
cache either was answered from a hit (left unchanged, holding exactly the
returned token), or was set by the fetch path to absent-or-entry according
to the *selected* expiry (`expires_in || expiresIn` must be a positive
number) with `expiresAt = now + expiry`. On every failure path where the
call itself fails with an `McpError` after the token endpoint responded
(non-2xx status, JSON parse failure, or an unusable token field in a
non-`null` body), the cache is absent afterwards; a 2xx body that is the
JSON literal `null` instead escapes as an uncaught TypeError from the
unguarded line-87 dereference, which leaves the incoming cache untouched. -/
theorem C10_cache_consistency (cfg : Config) (cache : Option CachedToken)
    (now : Int) (tf : Except String HttpResponse) :
    (∀ c : CachedToken, cache = some c →
      now + TOKEN_EXPIRY_BUFFER_SECONDS < c.expiresAt →
      getAccessToken cfg cache now tf = ⟨.ok c.token, some c, []⟩)
    ∧ (∀ (r : HttpResponse) (j : Json) (s : String),
        cacheHit cache now = false → tf = .ok r → r.json = .ok j →
        credsMissing cfg = false →
        (getAccessToken cfg cache now tf).result = .ok s →
        (getAccessToken cfg cache now tf).cache
          = (validExpiry (expiresInField j)).map fun e => (⟨s, now + e⟩ : CachedToken))
    ∧ (∀ (r : HttpResponse) (err : McpError),
        cacheHit cache now = false → credsMissing cfg = false → tf = .ok r →
        (getAccessToken cfg cache now tf).result = .error err →
        (getAccessToken cfg cache now tf).cache = none)
    ∧ (∀ r : HttpResponse,
        cacheHit cache now = false → credsMissing cfg = false → tf = .ok r →
        r.isOk = true → r.json = .ok .null →
        getAccessToken cfg cache now tf
          = ⟨.thrown nullDerefMessage, cache, [.tokenRequest]⟩) := by
  refine ⟨?_, ?_, ?_, ?_⟩
  · intro c hc hhit
    subst hc
    exact getAccessToken_of_cacheHit cfg c now tf hhit
  · intro r j s hmiss htf hjson hcreds hres
    subst htf
    rw [getAccessToken_of_cacheHit_false cfg cache now _ hmiss] at hres ⊢
    obtain ⟨hok, htok, hs⟩ :=
      getAccessTokenFetch_ok_success cfg cache now r j s hcreds hjson hres
    rw [getAccessTokenFetch_success cfg cache now r j s hcreds hok hjson htok hs]
  · intro r err hmiss hcreds htf hres
    subst htf
    rw [getAccessToken_of_cacheHit_false cfg cache now _ hmiss] at hres ⊢
    exact getAccessTokenFetch_ok_error cfg cache now r err hcreds hres
  · intro r hmiss hcreds htf hok hjson
    subst htf
    rw [getAccessToken_of_cacheHit_false cfg cache now _ hmiss]
    exact getAccessTokenFetch_null_body cfg cache now r hcreds hok hjson

/-- Witness for the amended C10, exercising all four clauses at concrete
inputs: a cache hit, a successful fetch with `expires_in = 120`, a
post-response `McpError` failure (non-2xx), and the thrown TypeError on a
`null` body. -/
theorem C10_cache_consistency_witness :
    getAccessToken ⟨some "id", some "secret"⟩ (some ⟨"tok", 1000⟩) 0 (.error "x")
      = ⟨.ok "tok", some ⟨"tok", 1000⟩, []⟩
    ∧ (getAccessToken ⟨some "id", some "secret"⟩ none 7
        (.ok ⟨200, some "", .ok (.obj [("token", .str "abc"), ("expires_in", .num 120)])⟩)).cache
      = some ⟨"abc", 7 + 120⟩
    ∧ (getAccessToken ⟨some "id", some "secret"⟩ none 0
        (.ok ⟨503, some "down", .error "bad"⟩)).cache = none
    ∧ getAccessToken ⟨some "id", some "secret"⟩ none 9 (.ok ⟨200, some "", .ok .null⟩)
      = ⟨.thrown nullDerefMessage, none, [.tokenRequest]⟩ := by
  refine ⟨(C10_cache_consistency ⟨some "id", some "secret"⟩ (some ⟨"tok", 1000⟩) 0
      (.error "x")).1 ⟨"tok", 1000⟩ rfl (by decide), ?_, ?_, ?_⟩
  · exact (C10_cache_consistency ⟨some "id", some "secret"⟩ none 7
      (.ok ⟨200, some "", .ok (.obj [("token", .str "abc"), ("expires_in", .num 120)])⟩)).2.1
      ⟨200, some "", .ok (.obj [("token", .str "abc"), ("expires_in", .num 120)])⟩
      (.obj [("token", .str "abc"), ("expires_in", .num 120)]) "abc"
      rfl rfl rfl rfl rfl
  · exact (C10_cache_consistency ⟨some "id", some "secret"⟩ none 0
      (.ok ⟨503, some "down", .error "bad"⟩)).2.2.1
      ⟨503, some "down", .error "bad"⟩ ⟨503, "Failed to get PatSnap access token: down"⟩
      rfl rfl rfl rfl
  · exact (C10_cache_consistency ⟨some "id", some "secret"⟩ none 9
      (.ok ⟨200, some "", .ok .null⟩)).2.2.2
      ⟨200, some "", .ok .null⟩ rfl rfl rfl rfl rfl

/-- Claim C2: whenever a data-endpoint call (with a successfully acquired
token) receives an HTTP 401 or 403 response, the cached token is cleared AND
the call fails with an error carrying that HTTP status and the upstream
response body text in its message; exactly one data request is made, so
there is no automatic in-call retry. -/
theorem C2_auth_error_clears_cache (cfg : Config) (cache : Option CachedToken)
    (now : Int) (tf df : Except String HttpResponse) (endpoint : String)
    (params : List (String × String)) (ctx : String) (tok : String)
    (r : HttpResponse) (b : String)
    (htok : (getAccessToken cfg cache now tf).result = .ok tok)
    (hdf : df = .ok r) (hst : r.status = 401 ∨ r.status = 403)
    (hb : r.bodyText = some b) :
    (callPatsnapApi cfg cache now tf df endpoint params ctx).result
      = .error ⟨r.status, "Failed to " ++ ctx ++ ": " ++ b⟩
    ∧ (callPatsnapApi cfg cache now tf df endpoint params ctx).cache = none
    ∧ (callPatsnapApi cfg cache now tf df endpoint params ctx).events.countP
        (fun e => NetEvent.isData e) = 1 := by
  subst hdf
  rw [callPatsnapApi_of_token_ok cfg cache now tf _ endpoint params ctx tok htok,
    dataPhase_auth_failure _ _ r endpoint ctx b hst hb]
  refine ⟨rfl, rfl, ?_⟩
  rcases getAccessToken_events cfg cache now tf with h | h <;>
    simp [h, List.countP_append, List.countP_cons, NetEvent.isData]

/-- Witness for C2: a 401 response with body `auth denied` on a cache-hit
call fails with status 401 carrying that body, clears the cache, and makes
exactly one data request. -/
theorem C2_auth_error_clears_cache_witness :
    (callPatsnapApi ⟨some "id", some "secret"⟩ (some ⟨"tok", 1000⟩) 0 (.error "x")
        (.ok ⟨401, some "auth denied", .error "nojson"⟩) "patent-trends"
        [("keywords", "phone")] "get patent trends").result
      = .error ⟨401, "Failed to get patent trends: auth denied"⟩
    ∧ (callPatsnapApi ⟨some "id", some "secret"⟩ (some ⟨"tok", 1000⟩) 0 (.error "x")
        (.ok ⟨401, some "auth denied", .error "nojson"⟩) "patent-trends"
        [("keywords", "phone")] "get patent trends").cache = none
    ∧ (callPatsnapApi ⟨some "id", some "secret"⟩ (some ⟨"tok", 1000⟩) 0 (.error "x")
        (.ok ⟨401, some "auth denied", .error "nojson"⟩) "patent-trends"
        [("keywords", "phone")] "get patent trends").events.countP
        (fun e => NetEvent.isData e) = 1 := by
  exact C2_auth_error_clears_cache ⟨some "id", some "secret"⟩ (some ⟨"tok", 1000⟩) 0
    (.error "x") (.ok ⟨401, some "auth denied", .error "nojson"⟩) "patent-trends"
    [("keywords", "phone")] "get patent trends" "tok"
    ⟨401, some "auth denied", .error "nojson"⟩ "auth denied"
    rfl rfl (Or.inl rfl) rfl

/-- Counterexample to claim C3 as stated: the 2xx body
`\x7b status: false \x7d` has no error code at all, so by the claim's words
(success flag false *paired with a nonzero error code*) it is not a domain
failure and should be returned pretty-printed — but the code's
`json.error_code !== 0` treats the absent field as nonzero and fails the
call with `PatSnap API Error (undefined): Unknown error`. -/
theorem C3_domain_error_counterexample :
    specDomainFailure (Json.obj [("status", Json.bool false)]) = false
    ∧ (callPatsnapApi ⟨some "id", some "secret"⟩ (some ⟨"tok", 1000⟩) 0 (.error "x")
        (.ok ⟨200, some "", .ok (.obj [("status", .bool false)])⟩)
        "patent-trends" [] "get patent trends").result
      = .error ⟨400, "PatSnap API Error (undefined): Unknown error"⟩ := by
  exact ⟨rfl, rfl⟩

/-- Claim C3, amended: a 2xx data-endpoint JSON body is a domain failure
when the body is truthy, its `status` field is strictly `false`, and its
`error_code` field is anything other than the number 0 (an absent
`error_code` included); such a call fails with status 400 carrying the
displayed domain code and message. Every other 2xx JSON body is returned
verbatim. In both cases the token cache is left exactly as token
acquisition left it — domain errors never invalidate it. -/
theorem C3_domain_error_handling (cfg : Config) (cache : Option CachedToken)
    (now : Int) (tf df : Except String HttpResponse) (endpoint : String)
    (params : List (String × String)) (ctx : String) (tok : String)
    (r : HttpResponse) (j : Json)
    (htok : (getAccessToken cfg cache now tf).result = .ok tok)
    (hdf : df = .ok r) (hok : r.isOk = true) (hjson : r.json = .ok j) :
    (isDomainError j = true →
      (callPatsnapApi cfg cache now tf df endpoint params ctx).result
        = .error ⟨400, "PatSnap API Error (" ++ displayOpt (j.getField "error_code")
            ++ "): " ++ errMsgOf j⟩)
    ∧ (isDomainError j = false →
      (callPatsnapApi cfg cache now tf df endpoint params ctx).result = .ok j)
    ∧ (callPatsnapApi cfg cache now tf df endpoint params ctx).cache
        = (getAccessToken cfg cache now tf).cache := by
  subst hdf
  rw [callPatsnapApi_of_token_ok cfg cache now tf _ endpoint params ctx tok htok,
    dataPhase_ok _ _ r j endpoint ctx hok hjson]
  refine ⟨fun h => by simp [h], fun h => by simp [h], ?_⟩
  by_cases h : isDomainError j <;> simp [h]

/-- Witness for the amended C3: a token cached as valid, then (a) the 2xx
body `\x7b status: false, error_code: 67200002, error_msg: "quota" \x7d`
fails with the domain code and message while the cache survives, and (b)
the 2xx body `\x7b status: true, data: 7 \x7d` is returned verbatim. -/
theorem C3_domain_error_handling_witness :
    (callPatsnapApi ⟨some "id", some "secret"⟩ (some ⟨"tok", 1000⟩) 0 (.error "x")
        (.ok ⟨200, some "", .ok (.obj [("status", .bool false), ("error_code", .num 67200002),
          ("error_msg", .str "quota")])⟩) "word-cloud" [] "get word cloud").result
      = .error ⟨400, "PatSnap API Error (67200002): quota"⟩
    ∧ (callPatsnapApi ⟨some "id", some "secret"⟩ (some ⟨"tok", 1000⟩) 0 (.error "x")
        (.ok ⟨200, some "", .ok (.obj [("status", .bool false), ("error_code", .num 67200002),
          ("error_msg", .str "quota")])⟩) "word-cloud" [] "get word cloud").cache
      = some ⟨"tok", 1000⟩
    ∧ (callPatsnapApi ⟨some "id", some "secret"⟩ (some ⟨"tok", 1000⟩) 0 (.error "x")
        (.ok ⟨200, some "", .ok (.obj [("status", .bool true), ("data", .num 7)])⟩)
        "word-cloud" [] "get word cloud").result
      = .ok (.obj [("status", .bool true), ("data", .num 7)]) := by
  refine ⟨?_, ?_, ?_⟩
  · exact (C3_domain_error_handling ⟨some "id", some "secret"⟩ (some ⟨"tok", 1000⟩) 0
      (.error "x") _ "word-cloud" [] "get word cloud" "tok"
      ⟨200, some "", .ok (.obj [("status", .bool false), ("error_code", .num 67200002),
        ("error_msg", .str "quota")])⟩
      (.obj [("status", .bool false), ("error_code", .num 67200002), ("error_msg", .str "quota")])
      rfl rfl rfl rfl).1 rfl
  · exact (C3_domain_error_handling ⟨some "id", some "secret"⟩ (some ⟨"tok", 1000⟩) 0
      (.error "x") _ "word-cloud" [] "get word cloud" "tok"
      ⟨200, some "", .ok (.obj [("status", .bool false), ("error_code", .num 67200002),
        ("error_msg", .str "quota")])⟩
      (.obj [("status", .bool false), ("error_code", .num 67200002), ("error_msg", .str "quota")])
      rfl rfl rfl rfl).2.2
  · exact (C3_domain_error_handling ⟨some "id", some "secret"⟩ (some ⟨"tok", 1000⟩) 0
      (.error "x") _ "word-cloud" [] "get word cloud" "tok"
      ⟨200, some "", .ok (.obj [("status", .bool true), ("data", .num 7)])⟩
      (.obj [("status", .bool true), ("data", .num 7)])
      rfl rfl rfl rfl).2.1 rfl

/-- Counterexample to claim C4 as stated, in two parts. (a) On the 2xx token
body `\x7b access_token: "", token: "ZZZ" \x7d` the first *present* of the
listed fields is `access_token` with the string value `""`, so by the claim
the call accepts `""` — but the code's `||` chain skips the falsy empty
string and returns `"ZZZ"`. (b) On the 2xx body that is the JSON literal
`null`, none of the fields is present (let alone a string), so by the claim
the call fails with the ParseError and the cache is left absent — but the
unguarded dereference of source line 87 throws a TypeError before
`cachedToken = null` can run: no `McpError` is produced and a stale cache
entry survives. -/
theorem C4_token_extraction_counterexample :
    specFirstPresentToken (.obj [("access_token", .str ""), ("token", .str "ZZZ")])
      = some (.str "")
    ∧ (getAccessToken ⟨some "id", some "secret"⟩ none 0
        (.ok ⟨200, some "", .ok (.obj [("access_token", .str ""), ("token", .str "ZZZ")])⟩)).result
      = .ok "ZZZ"
    ∧ ("ZZZ" : String) ≠ ""
    ∧ specFirstPresentToken Json.null = none
    ∧ getAccessToken ⟨some "id", some "secret"⟩ (some ⟨"stale", 10⟩) 100
        (.ok ⟨200, some "", .ok .null⟩)
      = ⟨.thrown nullDerefMessage, some ⟨"stale", 10⟩, [.tokenRequest]⟩ := by
  exact ⟨rfl, rfl, by decide, rfl, rfl⟩

/-- Claim C4, amended: for a 2xx token-endpoint response whose body is not
the JSON literal `null`, the accepted token is the first *truthy* value of
`access_token`, `token`, nested `data.token` (JavaScript `||`/`&&`
chaining, so falsy values such as `""`, `0` and `false` are skipped over);
when the selected value is not a nonempty string, `getAccessToken` fails
with the status-500 parse error and the cache is left absent. A body that
*is* the literal `null` instead makes the unguarded line-87 dereference
throw a TypeError, which leaves the incoming cache untouched. -/
theorem C4_token_extraction (cfg : Config) (cache : Option CachedToken)
    (now : Int) (r : HttpResponse) (j : Json)
    (hcreds : credsMissing cfg = false) (hmiss : cacheHit cache now = false)
    (hok : r.isOk = true) (hjson : r.json = .ok j) :
    (∀ s : String, extractTokenField j = some (.str s) → (s == "") = false →
      (getAccessToken cfg cache now (.ok r)).result = .ok s)
    ∧ (j.isNull = false → tokenFieldInvalid j = true →
        getAccessToken cfg cache now (.ok r)
          = ⟨.error ⟨500, "Failed to parse access token from PatSnap response structure."⟩,
              none, [.tokenRequest]⟩)
    ∧ (j.isNull = true →
        getAccessToken cfg cache now (.ok r)
          = ⟨.thrown nullDerefMessage, cache, [.tokenRequest]⟩) := by
  rw [getAccessToken_of_cacheHit_false cfg cache now _ hmiss]
  refine ⟨?_, ?_, ?_⟩
  · intro s htok hs
    rw [getAccessTokenFetch_success cfg cache now r j s hcreds hok hjson htok hs]
  · intro hnn hbad
    unfold tokenFieldInvalid at hbad
    unfold getAccessTokenFetch
    simp only [hcreds, Bool.false_eq_true, if_false, hok, Bool.not_true, hjson, hnn]
    rcases hx : extractTokenField j with _ | v
    · rfl
    · rw [hx] at hbad
      rcases v with _ | b | n | sv | xs | fs
      · rfl
      · rfl
      · rfl
      · simp only at hbad
        simp [hbad]
      · rfl
      · rfl
  · intro hnn
    have hj : r.json = Except.ok Json.null := by
      cases j <;> simp_all [Json.isNull]
    exact getAccessTokenFetch_null_body cfg cache now r hcreds hok hj

/-- Witness for the amended C4: (a) on `\x7b token: "abc" \x7d` the chain
selects `"abc"`; (b) on `\x7b access_token: 12345 \x7d` the selected value
is a number, so the call fails with the parse error and an empty cache;
(c) on the body `null` the call ends in the thrown TypeError with the
cache untouched. -/
theorem C4_token_extraction_witness :
    (getAccessToken ⟨some "id", some "secret"⟩ none 0
        (.ok ⟨200, some "", .ok (.obj [("token", .str "abc")])⟩)).result = .ok "abc"
    ∧ getAccessToken ⟨some "id", some "secret"⟩ none 0
        (.ok ⟨200, some "", .ok (.obj [("access_token", .num 12345)])⟩)
      = ⟨.error ⟨500, "Failed to parse access token from PatSnap response structure."⟩,
          none, [.tokenRequest]⟩
    ∧ getAccessToken ⟨some "id", some "secret"⟩ none 3 (.ok ⟨200, some "", .ok .null⟩)
      = ⟨.thrown nullDerefMessage, none, [.tokenRequest]⟩ := by
  exact ⟨(C4_token_extraction ⟨some "id", some "secret"⟩ none 0
      ⟨200, some "", .ok (.obj [("token", .str "abc")])⟩ (.obj [("token", .str "abc")])
      rfl rfl rfl rfl).1 "abc" rfl rfl,
    (C4_token_extraction ⟨some "id", some "secret"⟩ none 0
      ⟨200, some "", .ok (.obj [("access_token", .num 12345)])⟩
      (.obj [("access_token", .num 12345)]) rfl rfl rfl rfl).2.1 rfl rfl,
    (C4_token_extraction ⟨some "id", some "secret"⟩ none 3
      ⟨200, some "", .ok .null⟩ .null rfl rfl rfl rfl).2.2 rfl⟩

/-- Counterexample to claim C5 as stated: for the word-cloud tool (which the
registry maps to a language default) with arguments `\x7b keywords: "phone" \x7d`
and client id `CID`, the code emits `keywords, apikey, lang` — the API key
is appended *inside* the common builder, before the default — while the
claim's order (user arguments, then defaults, then API key) predicts
`keywords, lang, apikey`. Moreover with arguments `\x7b lang: "" \x7d` the
code emits the user's empty `lang` *and* the default `lang=en`, although the
claim applies defaults only for keys not already present. -/
theorem C5_query_param_counterexample :
    toolImplementations.lookup "get_word_cloud"
      = some ⟨"word-cloud", "get word cloud", true⟩
    ∧ toolParams ⟨some "CID", some "SEC"⟩ ⟨"word-cloud", "get word cloud", true⟩
        (.obj [("keywords", .str "phone")])
      = [("keywords", "phone"), ("apikey", "CID"), ("lang", "en")]
    ∧ specBuildParams ⟨some "CID", some "SEC"⟩ (.obj [("keywords", .str "phone")])
        [("lang", "en")]
      = [("keywords", "phone"), ("lang", "en"), ("apikey", "CID")]
    ∧ ([("keywords", "phone"), ("apikey", "CID"), ("lang", "en")] : List (String × String))
      ≠ [("keywords", "phone"), ("lang", "en"), ("apikey", "CID")]
    ∧ toolParams ⟨some "CID", some "SEC"⟩ ⟨"word-cloud", "get word cloud", true⟩
        (.obj [("lang", .str "")])
      = [("lang", ""), ("apikey", "CID"), ("lang", "en")]
    ∧ specBuildParams ⟨some "CID", some "SEC"⟩ (.obj [("lang", .str "")]) [("lang", "en")]
      = [("lang", ""), ("apikey", "CID")] := by
  exact ⟨rfl, rfl, rfl, by decide, rfl, rfl⟩

/-- Claim C5, amended: the query a tool sends is exactly the user arguments
in insertion order (skipping `null`/`undefined` values and stringifying
numbers and booleans), then the `apikey` parameter when a truthy client id
is configured, and then — after the API key, not before — the `lang=en`
default when the tool registers a language default and the user's `lang`
value is falsy (absent, `null`, empty string, `0`, or `false`). -/
theorem C5_query_param_assembly (cfg : Config) (impl : ToolImpl) (args : Json) :
    toolParams cfg impl args
      = (args.ownFields.filterMap fun kv =>
          if kv.2.isNull then none else some (kv.1, kv.2.display))
        ++ apikeyParams cfg
        ++ (if impl.langDefault && !(jsTruthy (args.getField "lang"))
            then [("lang", "en")] else []) := by
  unfold toolParams
  rw [buildCommonSearchParams_eq]
  by_cases h : (impl.langDefault && !(jsTruthy (args.getField "lang"))) = true <;>
    simp [h]

/-- Claim C7: a well-formed CallTool request naming a registered tool is
always dispatched to its implementation — arguments are never inspected for
`keywords`/`ipc`, an absent or non-object `arguments` value resolves to the
empty mapping, and (given a valid cached token) the request is forwarded
upstream as exactly one data request, so no local rejection occurs for any
argument set. The handler wraps the implementation call in the catch block
`dispatchCatch` (source lines 401-415), which only rewrites a thrown
non-`McpError` exception; whenever the implementation does not throw such
an exception the handler's output is the implementation's output
verbatim. -/
theorem C7_dispatch_no_local_rejection (cfg : Config) (cache : Option CachedToken)
    (now : Int) (tf df : Except String HttpResponse)
    (pfs : List (String × Json)) (s : String) (impl : ToolImpl)
    (hname : pfs.lookup "name" = some (.str s)) (hs : (s == "") = false)
    (himpl : toolImplementations.lookup s = some impl) :
    handleCallTool cfg cache now tf df (.obj [("params", .obj pfs)])
      = dispatchCatch s
          (runTool cfg cache now tf df impl (resolveToolArgs (pfs.lookup "arguments")))
    ∧ ((runTool cfg cache now tf df impl
          (resolveToolArgs (pfs.lookup "arguments"))).result.isThrown = false →
        handleCallTool cfg cache now tf df (.obj [("params", .obj pfs)])
          = runTool cfg cache now tf df impl (resolveToolArgs (pfs.lookup "arguments")))
    ∧ (∀ v : Json, isObjectLike v = false → resolveToolArgs (some v) = .obj [])
    ∧ resolveToolArgs none = .obj []
    ∧ (∀ c : CachedToken, cache = some c →
        now + TOKEN_EXPIRY_BUFFER_SECONDS < c.expiresAt →
        (handleCallTool cfg cache now tf df (.obj [("params", .obj pfs)])).events.countP
          (fun e => NetEvent.isData e) = 1) := by
  have hdisp : handleCallTool cfg cache now tf df (.obj [("params", .obj pfs)])
      = dispatchCatch s
          (runTool cfg cache now tf df impl (resolveToolArgs (pfs.lookup "arguments"))) := by
    rw [handleCallTool_named cfg cache now tf df pfs s hname hs, himpl]
  refine ⟨hdisp, ?_, fun v hv => by simp [resolveToolArgs, hv], rfl, ?_⟩
  · intro hnt
    rw [hdisp]
    unfold dispatchCatch
    split
    · rename_i heq
      rw [heq] at hnt
      exact absurd hnt (by simp [Outcome.isThrown])
    · rfl
  · intro c hc hhit
    subst hc
    have hga : getAccessToken cfg (some c) now tf = ⟨.ok c.token, some c, []⟩ :=
      getAccessToken_of_cacheHit cfg c now tf hhit
    rw [hdisp, (dispatchCatch_events s _).2]
    unfold runTool
    rw [callPatsnapApi_of_token_ok cfg (some c) now tf df impl.endpoint
        (toolParams cfg impl (resolveToolArgs (pfs.lookup "arguments")))
        impl.errorContext c.token (by rw [hga]),
      dataPhase_events, hga]
    rfl

/-- Witness for C7: a CallTool request for `get_patent_trends` with no
`arguments` at all (so no `keywords` and no `ipc`) dispatches to the
implementation with the empty argument object and forwards one upstream
data request. -/
theorem C7_dispatch_no_local_rejection_witness :
    handleCallTool ⟨some "id", some "secret"⟩ (some ⟨"tok", 1000⟩) 0 (.error "x")
        (.ok ⟨200, some "", .ok (.obj [("status", .bool true)])⟩)
        (.obj [("params", .obj [("name", .str "get_patent_trends")])])
      = runTool ⟨some "id", some "secret"⟩ (some ⟨"tok", 1000⟩) 0 (.error "x")
          (.ok ⟨200, some "", .ok (.obj [("status", .bool true)])⟩)
          ⟨"patent-trends", "get patent trends", false⟩ (.obj [])
    ∧ (handleCallTool ⟨some "id", some "secret"⟩ (some ⟨"tok", 1000⟩) 0 (.error "x")
        (.ok ⟨200, some "", .ok (.obj [("status", .bool true)])⟩)
        (.obj [("params", .obj [("name", .str "get_patent_trends")])])).events.countP
        (fun e => NetEvent.isData e) = 1 := by
  have h := C7_dispatch_no_local_rejection ⟨some "id", some "secret"⟩
    (some ⟨"tok", 1000⟩) 0 (.error "x")
    (.ok ⟨200, some "", .ok (.obj [("status", .bool true)])⟩)
    [("name", .str "get_patent_trends")] "get_patent_trends"
    ⟨"patent-trends", "get patent trends", false⟩ rfl rfl rfl
  exact ⟨h.2.1 rfl, h.2.2.2.2 ⟨"tok", 1000⟩ rfl (by decide)⟩

/-- Claim C8: the ListTools response enumerates each tool name exactly once
(no duplicates), and the listed names coincide, as a multiset, with the
names dispatchable through `toolImplementations` — every listed tool
dispatches and every dispatchable tool is listed. (The response literal is
itself the registry, so each entry's description and schema match the
registry's static definition by construction.) -/
theorem C8_list_tools_round_trip :
    (listToolsResponse.map ToolDef.name).Nodup
    ∧ List.Perm (listToolsResponse.map ToolDef.name) (toolImplementations.map Prod.fst) := by
  exact ⟨by decide, by decide⟩

end Patsnap
